import Mathlib

/-!
Verification of the generation client in `app.py` of the AI travel planner.

The core of the program is `generate_itinerary_gemini`: it builds a prompt
and a JSON payload from the trip parameters, then runs a bounded retry loop
(`for attempt in range(MAX_RETRIES)`) around an HTTP POST, with exponential
backoff `2 ** attempt` on transient statuses (429, 500, 503) and on
transport-level faults, an immediate return on any other status, and a
nested-field extraction of the response body on status 200.

The embedding below is shallow: the JSON values a response body can parse
to are an inductive type with the indexing semantics of Python (`d[k]` on a dict
raises KeyError when the key is absent, `l[i]` on a list raises IndexError
when out of range, indexing any other value with a string key — or most
values with an integer — raises TypeError, and indexing a string with an
in-range integer yields a one-character string).  The environment a run
executes against is a function from the attempt index to what the call
to `requests.post` on that attempt produces: either an HTTP response (status code,
optional parsed JSON body — `none` models a body `response.json()` cannot
decode, which raises a `requests.exceptions.JSONDecodeError`, a subclass of
`RequestException` in the installed requests library — and the raw body
text) or a transport-level fault (`requests.exceptions.RequestException`).
A run produces a trace: the outcome (a normal return value, or a Python
exception that propagated out of the function), the list of sleep durations
in order, the number of warnings emitted, and the list of HTTP requests
issued, one per attempt that executed `requests.post`.
-/

/-- Python exception kinds that can arise while indexing into a parsed
JSON value, as in `data["candidates"][0]["content"]["parts"][0]["text"]`. -/
inductive PyErr where
  | keyError
  | indexError
  | typeError
deriving DecidableEq, Repr

/-- A JSON value as produced by `response.json()`.  JSON number literals
are modelled as `decimal m e`, meaning `m * 10 ^ (-e)`; integers carry
exponent `0`. -/
inductive Json where
  | null
  | bool (b : Bool)
  | decimal (m : Int) (e : Nat)
  | str (s : String)
  | arr (xs : List Json)
  | obj (kvs : List (String × Json))

/-- Python `json.loads` keeps the last occurrence of a duplicated object
key, so lookup returns the last binding of `k`. -/
def lookupLast (kvs : List (String × Json)) (k : String) : Option Json :=
  kvs.foldl (fun acc p => if p.1 = k then some p.2 else acc) none

/-- Python `v[k]` for a string key `k`: a dict yields the binding or raises
KeyError; every other value raises TypeError. -/
def Json.getKey : Json → String → Except PyErr Json
  | .obj kvs, k =>
    match lookupLast kvs k with
    | some v => .ok v
    | none => .error .keyError
  | _, _ => .error .typeError

/-- Python `v[i]` for an integer index `i ≥ 0`: a list yields the element
or raises IndexError; a dict raises KeyError (JSON object keys are strings,
so an integer key is never present); a string yields the one-character
substring or raises IndexError; other values raise TypeError. -/
def Json.getIdx : Json → Nat → Except PyErr Json
  | .arr xs, i =>
    match xs.get? i with
    | some v => .ok v
    | none => .error .indexError
  | .obj _, _ => .error .keyError
  | .str s, i =>
    match s.toList.get? i with
    | some c => .ok (.str (String.singleton c))
    | none => .error .indexError
  | _, _ => .error .typeError

/-- The body access `data["candidates"][0]["content"]["parts"][0]["text"]`
performed in the 200 branch of `generate_itinerary_gemini`. -/
def extractText (data : Json) : Except PyErr Json := do
  let a ← data.getKey "candidates"
  let b ← a.getIdx 0
  let c ← b.getKey "content"
  let d ← c.getKey "parts"
  let e ← d.getIdx 0
  e.getKey "text"

/-- What one call to `requests.post` produces: an HTTP response (status
code, parsed JSON body or `none` when the body is not decodable JSON, and
the raw body text exposed as `response.text`), or a transport-level fault
raising `requests.exceptions.RequestException`. -/
inductive Attempt where
  | response (status : Nat) (body : Option Json) (text : String)
  | fault (msg : String)

/-- The retry cap `MAX_RETRIES = 5` of app.py. -/
def MAX_RETRIES : Nat := 5

/-- The parse-error return value of the 200 branch. -/
def parseErrorMsg : String :=
  "Error: Could not parse a valid response text from the API."

/-- The permanent-error return
`f"🚨 API Error: Status Code {response.status_code}\n\n**Response Details:**\n{response.text}"`. -/
def permErrorMsg (status : Nat) (text : String) : String :=
  "🚨 API Error: Status Code " ++ toString status ++
    "\n\n**Response Details:**\n" ++ text

/-- The exhaustion return
`f"🚨 API Error: Failed to connect after {MAX_RETRIES} attempts."`. -/
def exhaustMsg : String :=
  "🚨 API Error: Failed to connect after " ++ toString MAX_RETRIES ++
    " attempts."

/-- How the function leaves the retry loop: a normal `return` of a Python
value, or a Python exception propagating out of the function. -/
inductive Outcome where
  | ret (v : Json)
  | raised (e : PyErr)

/-- What processing the result of one attempt does: leave the loop with an
outcome, or fall through to the next attempt (`continue`) after computing
`wait_time`. -/
inductive StepRes where
  | finish (o : Outcome)
  | retry (wait : Nat)

/-- The body of one iteration of the retry loop of
`generate_itinerary_gemini`, lines 103-134 of app.py: on status 200 parse
the body (a JSON-decode failure is a `RequestException`, hence the
transient path; a KeyError/IndexError from the nested access returns the
parse-error message; a TypeError is caught by neither handler and
propagates); on 429/500/503 or a transport fault compute
`wait_time = 2 ** attempt` and continue; on any other status return the
permanent-error message.  The warning and sleep that the transient paths
guard with `attempt < MAX_RETRIES - 1` are recorded by `runFrom`. -/
def handleAttempt (attempt : Nat) (a : Attempt) : StepRes :=
  match a with
  | .fault _ => .retry (2 ^ attempt)
  | .response status body text =>
    if status = 200 then
      match body with
      | none => .retry (2 ^ attempt)
      | some data =>
        match extractText data with
        | .ok v => .finish (.ret v)
        | .error .keyError => .finish (.ret (.str parseErrorMsg))
        | .error .indexError => .finish (.ret (.str parseErrorMsg))
        | .error .typeError => .finish (.raised .typeError)
    else if status = 429 ∨ status = 500 ∨ status = 503 then
      .retry (2 ^ attempt)
    else
      .finish (.ret (.str (permErrorMsg status text)))

/-- One HTTP request as issued by `requests.post(url, headers=headers,
json=payload)`. -/
structure Request where
  method : String
  url : String
  headers : List (String × String)
  body : Json

/-- The observable trace of one call: the outcome, the backoff sleep
durations in order, the number of `st.warning` emissions, and the requests
issued (one per attempt that reached `requests.post`). -/
structure Trace where
  result : Outcome
  sleeps : List Nat
  warnings : Nat
  requests : List Request

/-- The retry loop `for attempt in range(MAX_RETRIES)` from the given
attempt index, with `fuel` attempts remaining (`attempt + fuel =
MAX_RETRIES` at the top-level call).  Falling off the loop returns the
exhaustion message.  A transient result warns and sleeps `2 ** attempt`
seconds only when `attempt < MAX_RETRIES - 1`, then continues. -/
def runFrom (req : Request) (env : Nat → Attempt) : Nat → Nat → Trace
  | _, 0 => ⟨.ret (.str exhaustMsg), [], 0, []⟩
  | attempt, fuel + 1 =>
    match handleAttempt attempt (env attempt) with
    | .finish o => ⟨o, [], 0, [req]⟩
    | .retry w =>
      let t := runFrom req env (attempt + 1) fuel
      if attempt < MAX_RETRIES - 1 then
        ⟨t.result, w :: t.sleeps, t.warnings + 1, req :: t.requests⟩
      else
        ⟨t.result, t.sleeps, t.warnings, req :: t.requests⟩

/-- `API_URL` from app.py. -/
def API_URL : String :=
  "https://generativelanguage.googleapis.com/v1/models/gemini-2.5-flash:generateContent"

/-- An ASCII apostrophe, written by code point to keep it out of source
literals. -/
def apos : String := String.singleton (Char.ofNat 39)

/-- The header line `### Day i` of one day section of the prompt
template. -/
def dayHeader (i : Nat) : String := "### Day " ++ toString i

/-- The five placeholder label lines of one day section of the prompt
template, in source order. -/
def labelLines : List String :=
  ["-   **Morning:** [Fill in low-cost/free activity]",
   "-   **Afternoon:** [Fill in cultural/interest activity]",
   "-   **Evening:** [Fill in cheap food market/local hangout]",
   "-   **Transport Tip:** [Fill in public transport advice]",
   "-   **Estimated Daily Cost:** [Fill in rough daily budget]"]

/-- One day section of the template as its list of lines: the header
followed by the five placeholder labels. -/
def daySectionLines (i : Nat) : List String := dayHeader i :: labelLines

/-- Newline-terminate and concatenate a list of lines. -/
def linesToText : List String → String
  | [] => ""
  | l :: ls => l ++ "\n" ++ linesToText ls

/-- One day section of the prompt template, appended per loop iteration
`for i in range(1, days + 1)` in app.py: a leading newline, then the
header and five label lines of the triple-quoted f-string, each
newline-terminated. -/
def daySection (i : Nat) : String :=
  "\n" ++ linesToText (daySectionLines i)

/-- `itinerary_structure`: the concatenation of the day sections for
`i = 1 .. days` (the `itinerary_structure += ...` loop). -/
def itinerary_structure (days : Nat) : String :=
  (List.range' 1 days).foldl (fun acc i => acc ++ daySection i) ""

/-- The line lists of the day sections for `i = 1 .. days`, concatenated:
the line-level view of `itinerary_structure`. -/
def itineraryStructureLines (days : Nat) : List String :=
  (List.range' 1 days).foldl (fun acc i => acc ++ daySectionLines i) []

/-- A line is a day-section header when it starts with `### Day`. -/
def isDayHeader (l : String) : Bool :=
  "### Day".toList.isPrefixOf l.toList

/-- Concatenation of `f i` over a list of day indices. -/
def concatMap (f : Nat → String) : List Nat → String
  | [] => ""
  | i :: is => f i ++ concatMap f is

/-- The prompt f-string of `generate_itinerary_gemini`. -/
def prompt (destination : String) (days : Nat) (interests : List String)
    (budget : Nat) (start_date end_date : String) : String :=
  "\nYou are an expert travel planner creating a detailed, budget-friendly itinerary for students.\n\nDestination: "
    ++ destination
    ++ "\nDays: " ++ toString days
    ++ "\nInterests: " ++ String.intercalate ", " interests
    ++ "\nBudget: $" ++ toString budget ++ " (Total estimated cost)"
    ++ "\nTravel Dates: " ++ start_date ++ " to " ++ end_date
    ++ "\n\nGenerate the **" ++ toString days
    ++ "-day itinerary** below, strictly filling in the content for each of the pre-defined Day sections.\n\n"
    ++ itinerary_structure days
    ++ "\n\nConclude the itinerary with a final section titled "
    ++ apos ++ "💰 Money-Saving Pro Tips" ++ apos
    ++ " listing 3 actionable, specific budget tips for this destination. Format the entire response using Markdown for clear readability.\n"

/-- The JSON payload of the POST: contents with the prompt as the sole
part, plus the generation config (temperature 0.7, maxOutputTokens 3000). -/
def payload (p : String) : Json :=
  .obj
    [("contents", .arr [.obj [("parts", .arr [.obj [("text", .str p)]])]]),
     ("generationConfig",
       .obj [("temperature", .decimal 7 1),
             ("maxOutputTokens", .decimal 3000 0)])]

/-- `generate_itinerary_gemini` of app.py, as a function of the trip
parameters, the API key, and the environment describing what the
call to `requests.post` on each attempt produces.  The URL, headers, prompt and payload
are built once, before the loop. -/
def generate_itinerary_gemini (destination : String) (days : Nat)
    (interests : List String) (budget : Nat)
    (start_date end_date : String) (api_key : String)
    (env : Nat → Attempt) : Trace :=
  let url := API_URL ++ "?key=" ++ api_key
  let p := prompt destination days interests budget start_date end_date
  let req : Request :=
    ⟨"POST", url, [("Content-Type", "application/json")], payload p⟩
  runFrom req env 0 MAX_RETRIES

/-- The startup error shown when the key is missing or empty
(`if not gemini_key`). -/
def configErrorMsg : String :=
  "🚨 Gemini API key not found in `secrets.toml`. Please configure your key to run the app."

/-- The app-level flow around the client: `st.secrets.get("GEMINI_API_KEY")`
yields `none` (absent) or a string; `if not gemini_key` — true for `none`
and for the empty string — shows the configuration error and halts via
`st.stop()` before any call to `generate_itinerary_gemini`; otherwise the
client runs with the key. -/
def app_run (secret : Option String) (destination : String) (days : Nat)
    (interests : List String) (budget : Nat)
    (start_date end_date : String) (env : Nat → Attempt) :
    Except String Trace :=
  match secret with
  | none => .error configErrorMsg
  | some k =>
    if k.isEmpty then .error configErrorMsg
    else .ok (generate_itinerary_gemini destination days interests budget
      start_date end_date k env)

/-- Number of HTTP POSTs issued by an app-level run: none when the run
halted at the configuration gate. -/
def postsOf : Except String Trace → Nat
  | .error _ => 0
  | .ok t => t.requests.length

/-- A response body for which the nested field access of the 200 branch
raises at most KeyError or IndexError, and any successfully extracted
value is a string: the class of 200 bodies that the two exception
handlers of the function fully cover. -/
def safeBody (body : Option Json) : Prop :=
  ∀ data, body = some data →
    extractText data ≠ .error .typeError ∧
      ∀ v, extractText data = .ok v → ∃ s, v = .str s

/-- An attempt result whose processing stays within the available
exception handlers: transport faults and non-200 responses always do;
a 200 response does when its body is `safeBody`. -/
def safeAttempt : Attempt → Prop
  | .fault _ => True
  | .response status body _ => status = 200 → safeBody body

/-- Whether an outcome is a normal return of a Python string. -/
def returnsString : Outcome → Bool
  | .ret (.str _) => true
  | _ => false

/-- A well-formed success body:
`candidates[0].content.parts[0].text` holds `txt`. -/
def goodBody (txt : String) : Json :=
  .obj [("candidates",
    .arr [.obj [("content",
      .obj [("parts", .arr [.obj [("text", .str txt)]])])]])]

/-! ### Unfolding and classification lemmas -/

/-- Exhausting the loop returns the exhaustion message with no further
side effects. -/
theorem runFrom_zero (req : Request) (env : Nat → Attempt) (attempt : Nat) :
    runFrom req env attempt 0 = ⟨.ret (.str exhaustMsg), [], 0, []⟩ := rfl

/-- One unfolding of the retry loop. -/
theorem runFrom_step (req : Request) (env : Nat → Attempt) (attempt fuel : Nat) :
    runFrom req env attempt (fuel + 1) =
      match handleAttempt attempt (env attempt) with
      | .finish o => ⟨o, [], 0, [req]⟩
      | .retry w =>
        let t := runFrom req env (attempt + 1) fuel
        if attempt < MAX_RETRIES - 1 then
          ⟨t.result, w :: t.sleeps, t.warnings + 1, req :: t.requests⟩
        else
          ⟨t.result, t.sleeps, t.warnings, req :: t.requests⟩ := rfl

/-- A response with status 429, 500 or 503 takes the transient path with
wait `2 ^ attempt`, whatever its body and text. -/
theorem handleAttempt_transient (attempt s : Nat) (b : Option Json) (t : String)
    (hs : s = 429 ∨ s = 500 ∨ s = 503) :
    handleAttempt attempt (.response s b t) = .retry (2 ^ attempt) := by
  rcases hs with h | h | h <;> subst h <;> rfl

/-- A response with any status other than 200, 429, 500 and 503 finishes
the loop at once with the permanent-error message. -/
theorem handleAttempt_permanent (attempt s : Nat) (b : Option Json) (t : String)
    (hn200 : s ≠ 200) (hn429 : s ≠ 429) (hn500 : s ≠ 500) (hn503 : s ≠ 503) :
    handleAttempt attempt (.response s b t)
      = .finish (.ret (.str (permErrorMsg s t))) := by
  simp [handleAttempt, hn200, hn429, hn500, hn503]

/-- Every request recorded by the loop is the one request built before
the loop. -/
theorem runFrom_requests (req : Request) (env : Nat → Attempt) :
    ∀ fuel attempt r, r ∈ (runFrom req env attempt fuel).requests → r = req := by
  intro fuel
  induction fuel with
  | zero => intro attempt r h; simp [runFrom_zero] at h
  | succ n ih =>
    intro attempt r h
    rw [runFrom_step] at h
    cases hH : handleAttempt attempt (env attempt) with
    | finish o =>
      rw [hH] at h
      simpa using h
    | retry w =>
      rw [hH] at h
      simp only at h
      split at h <;> simp at h <;>
        rcases h with h | h <;> first | exact h | exact ih _ _ h

/-- A full run in which every attempt takes the transient path: the
exhaustion message, sleeps 1, 2, 4, 8 (none after the fifth attempt),
four warnings, five posts. -/
theorem run_all_retry (req : Request) (env : Nat → Attempt)
    (h : ∀ i, i < MAX_RETRIES → handleAttempt i (env i) = .retry (2 ^ i)) :
    runFrom req env 0 MAX_RETRIES =
      ⟨.ret (.str exhaustMsg), [1, 2, 4, 8], 4, [req, req, req, req, req]⟩ := by
  have h0 := h 0 (by norm_num [MAX_RETRIES])
  have h1 := h 1 (by norm_num [MAX_RETRIES])
  have h2 := h 2 (by norm_num [MAX_RETRIES])
  have h3 := h 3 (by norm_num [MAX_RETRIES])
  have h4 := h 4 (by norm_num [MAX_RETRIES])
  show runFrom req env 0 (4 + 1) = _
  simp only [runFrom_step, runFrom_zero, h0, h1, h2, h3, h4, MAX_RETRIES]
  norm_num

/-! ### The claims -/

/-- C1: four consecutive 503 responses followed by a 200 whose body holds
a well-formed text field yield exactly that text, with exactly four
backoff sleeps of 1, 2, 4 and 8 seconds in that order and no sleep on the
fifth attempt. -/
theorem retry_503_then_success (dst : String) (days : Nat) (ints : List String)
    (bud : Nat) (sd ed key : String) (env : Nat → Attempt)
    (b0 b1 b2 b3 : Option Json) (t0 t1 t2 t3 t4 : String)
    (data : Json) (txt : String)
    (h0 : env 0 = .response 503 b0 t0) (h1 : env 1 = .response 503 b1 t1)
    (h2 : env 2 = .response 503 b2 t2) (h3 : env 3 = .response 503 b3 t3)
    (h4 : env 4 = .response 200 (some data) t4)
    (hx : extractText data = .ok (.str txt)) :
    (generate_itinerary_gemini dst days ints bud sd ed key env).result
        = .ret (.str txt) ∧
    (generate_itinerary_gemini dst days ints bud sd ed key env).sleeps
        = [1, 2, 4, 8] ∧
    (generate_itinerary_gemini dst days ints bud sd ed key env).warnings
        = 4 := by
  show (runFrom _ env 0 (4 + 1)).result = _ ∧
    (runFrom _ env 0 (4 + 1)).sleeps = _ ∧
    (runFrom _ env 0 (4 + 1)).warnings = _
  simp only [runFrom_step, runFrom_zero, h0, h1, h2, h3, h4, hx,
    handleAttempt, MAX_RETRIES]
  norm_num

/-- Witness for C1 at a concrete response sequence. -/
theorem retry_503_then_success_witness :
    (generate_itinerary_gemini "Hyderabad, India" 3 ["Culture", "History"]
      200 "2026-10-12" "2026-10-14" "KEY"
      (fun i => if i < 4 then .response 503 none "overloaded"
        else .response 200 (some (goodBody "OK")) "")).result
        = .ret (.str "OK") ∧
    (generate_itinerary_gemini "Hyderabad, India" 3 ["Culture", "History"]
      200 "2026-10-12" "2026-10-14" "KEY"
      (fun i => if i < 4 then .response 503 none "overloaded"
        else .response 200 (some (goodBody "OK")) "")).sleeps
        = [1, 2, 4, 8] ∧
    (generate_itinerary_gemini "Hyderabad, India" 3 ["Culture", "History"]
      200 "2026-10-12" "2026-10-14" "KEY"
      (fun i => if i < 4 then .response 503 none "overloaded"
        else .response 200 (some (goodBody "OK")) "")).warnings = 4 :=
  retry_503_then_success "Hyderabad, India" 3 ["Culture", "History"] 200
    "2026-10-12" "2026-10-14" "KEY"
    (fun i => if i < 4 then .response 503 none "overloaded"
      else .response 200 (some (goodBody "OK")) "")
    none none none none "overloaded" "overloaded" "overloaded" "overloaded"
    "" (goodBody "OK") "OK" rfl rfl rfl rfl rfl rfl

/-- C2: when all five attempts receive a transient status (429, 500 or
503), the call returns the exhaustion failure naming the attempt count 5,
with exactly four sleeps (none after the final attempt), four warnings,
and five posts. -/
theorem transient_exhaustion (dst : String) (days : Nat) (ints : List String)
    (bud : Nat) (sd ed key : String) (env : Nat → Attempt)
    (s0 s1 s2 s3 s4 : Nat) (b0 b1 b2 b3 b4 : Option Json)
    (t0 t1 t2 t3 t4 : String)
    (h0 : env 0 = .response s0 b0 t0) (h1 : env 1 = .response s1 b1 t1)
    (h2 : env 2 = .response s2 b2 t2) (h3 : env 3 = .response s3 b3 t3)
    (h4 : env 4 = .response s4 b4 t4)
    (hs0 : s0 = 429 ∨ s0 = 500 ∨ s0 = 503)
    (hs1 : s1 = 429 ∨ s1 = 500 ∨ s1 = 503)
    (hs2 : s2 = 429 ∨ s2 = 500 ∨ s2 = 503)
    (hs3 : s3 = 429 ∨ s3 = 500 ∨ s3 = 503)
    (hs4 : s4 = 429 ∨ s4 = 500 ∨ s4 = 503) :
    (generate_itinerary_gemini dst days ints bud sd ed key env).result
        = .ret (.str exhaustMsg) ∧
    exhaustMsg = "🚨 API Error: Failed to connect after 5 attempts." ∧
    (generate_itinerary_gemini dst days ints bud sd ed key env).sleeps
        = [1, 2, 4, 8] ∧
    (generate_itinerary_gemini dst days ints bud sd ed key env).warnings
        = 4 ∧
    (generate_itinerary_gemini dst days ints bud sd ed key env).requests.length
        = 5 := by
  have main : ∀ req : Request, runFrom req env 0 MAX_RETRIES =
      ⟨.ret (.str exhaustMsg), [1, 2, 4, 8], 4, [req, req, req, req, req]⟩ := by
    intro req
    refine run_all_retry req env (fun i hi => ?_)
    have hi5 : i < 5 := hi
    interval_cases i
    · rw [h0]; exact handleAttempt_transient 0 s0 b0 t0 hs0
    · rw [h1]; exact handleAttempt_transient 1 s1 b1 t1 hs1
    · rw [h2]; exact handleAttempt_transient 2 s2 b2 t2 hs2
    · rw [h3]; exact handleAttempt_transient 3 s3 b3 t3 hs3
    · rw [h4]; exact handleAttempt_transient 4 s4 b4 t4 hs4
  simp only [generate_itinerary_gemini]
  rw [main]
  exact ⟨rfl, rfl, rfl, rfl, rfl⟩

/-- Witness for C2: five consecutive 429 responses. -/
theorem transient_exhaustion_witness :
    (generate_itinerary_gemini "Delhi, India" 2 ["Food"] 150
      "2026-10-20" "2026-10-21" "KEY"
      (fun _ => .response 429 none "rate limited")).result
        = .ret (.str exhaustMsg) ∧
    exhaustMsg = "🚨 API Error: Failed to connect after 5 attempts." ∧
    (generate_itinerary_gemini "Delhi, India" 2 ["Food"] 150
      "2026-10-20" "2026-10-21" "KEY"
      (fun _ => .response 429 none "rate limited")).sleeps = [1, 2, 4, 8] ∧
    (generate_itinerary_gemini "Delhi, India" 2 ["Food"] 150
      "2026-10-20" "2026-10-21" "KEY"
      (fun _ => .response 429 none "rate limited")).warnings = 4 ∧
    (generate_itinerary_gemini "Delhi, India" 2 ["Food"] 150
      "2026-10-20" "2026-10-21" "KEY"
      (fun _ => .response 429 none "rate limited")).requests.length = 5 :=
  transient_exhaustion "Delhi, India" 2 ["Food"] 150 "2026-10-20"
    "2026-10-21" "KEY" (fun _ => .response 429 none "rate limited")
    429 429 429 429 429 none none none none none
    "rate limited" "rate limited" "rate limited" "rate limited" "rate limited"
    rfl rfl rfl rfl rfl
    (Or.inl rfl) (Or.inl rfl) (Or.inl rfl) (Or.inl rfl) (Or.inl rfl)

/-- C3: a response whose status is none of 200, 429, 500, 503 finishes
the call at any attempt position; received on the first attempt it makes
the call return the permanent-error string — which embeds the status code
and the raw body — with zero sleeps, zero warnings and a single post. -/
theorem permanent_status_immediate (dst : String) (days : Nat)
    (ints : List String) (bud : Nat) (sd ed key : String)
    (env : Nat → Attempt) (s : Nat) (b : Option Json) (t : String)
    (hn200 : s ≠ 200) (hn429 : s ≠ 429) (hn500 : s ≠ 500) (hn503 : s ≠ 503)
    (h0 : env 0 = .response s b t) :
    (∀ attempt, handleAttempt attempt (.response s b t)
        = .finish (.ret (.str (permErrorMsg s t)))) ∧
    (generate_itinerary_gemini dst days ints bud sd ed key env).result
        = .ret (.str (permErrorMsg s t)) ∧
    (generate_itinerary_gemini dst days ints bud sd ed key env).sleeps = [] ∧
    (generate_itinerary_gemini dst days ints bud sd ed key env).warnings = 0 ∧
    (generate_itinerary_gemini dst days ints bud sd ed key env).requests.length
        = 1 ∧
    (∃ pre mid : String, permErrorMsg s t = pre ++ toString s ++ mid ++ t) := by
  have hp : ∀ attempt, handleAttempt attempt (.response s b t)
      = .finish (.ret (.str (permErrorMsg s t))) :=
    fun attempt => handleAttempt_permanent attempt s b t hn200 hn429 hn500 hn503
  have main : ∀ req : Request, runFrom req env 0 MAX_RETRIES =
      ⟨.ret (.str (permErrorMsg s t)), [], 0, [req]⟩ := by
    intro req
    show runFrom req env 0 (4 + 1) = _
    rw [runFrom_step, h0, hp 0]
  simp only [generate_itinerary_gemini]
  rw [main]
  exact ⟨hp, rfl, rfl, rfl, rfl,
    ⟨"🚨 API Error: Status Code ", "\n\n**Response Details:**\n", rfl⟩⟩

/-- Witness for C3: a single 401 response. -/
theorem permanent_status_immediate_witness :
    (generate_itinerary_gemini "Tokyo, Japan" 2 ["Art"] 300
      "2026-10-15" "2026-10-16" "BADKEY"
      (fun _ => .response 401 none "Unauthorized")).result
        = .ret (.str (permErrorMsg 401 "Unauthorized")) ∧
    (generate_itinerary_gemini "Tokyo, Japan" 2 ["Art"] 300
      "2026-10-15" "2026-10-16" "BADKEY"
      (fun _ => .response 401 none "Unauthorized")).sleeps = [] ∧
    (generate_itinerary_gemini "Tokyo, Japan" 2 ["Art"] 300
      "2026-10-15" "2026-10-16" "BADKEY"
      (fun _ => .response 401 none "Unauthorized")).warnings = 0 ∧
    (generate_itinerary_gemini "Tokyo, Japan" 2 ["Art"] 300
      "2026-10-15" "2026-10-16" "BADKEY"
      (fun _ => .response 401 none "Unauthorized")).requests.length = 1 ∧
    (∃ pre mid : String,
      permErrorMsg 401 "Unauthorized"
        = pre ++ toString 401 ++ mid ++ "Unauthorized") :=
  (permanent_status_immediate "Tokyo, Japan" 2 ["Art"] 300 "2026-10-15"
    "2026-10-16" "BADKEY" (fun _ => .response 401 none "Unauthorized")
    401 none "Unauthorized" (by decide) (by decide) (by decide) (by decide)
    rfl).2

/-- C4 counterexample: a 200 response whose JSON body is malformed with a
wrongly-typed node (`candidates` bound to a number) makes the nested
access raise TypeError, which neither `except (KeyError, IndexError)` nor
`except RequestException` catches: the call raises instead of returning
the parse-error failure string. -/
theorem parse_error_cex :
    (generate_itinerary_gemini "d" 1 [] 100 "s" "e" "k"
      (fun _ => .response 200 (some (.obj [("candidates", .decimal 3 0)])) "")).result
        = .raised .typeError ∧
    Outcome.raised .typeError ≠ .ret (.str parseErrorMsg) :=
  ⟨rfl, fun h => Outcome.noConfusion h⟩

/-- C4 (amended): for a 200 response whose nested body access fails with
KeyError or IndexError, the call returns the parse-error failure at once —
zero sleeps, zero warnings, a single post; for a 200 response whose body
holds the text field, it returns exactly that text with zero sleeps and
zero warnings.  (As stated the claim is false: a 200 body whose access
raises TypeError propagates the exception, and a non-JSON 200 body is
retried as transient.) -/
theorem parse_error_zero_retry (dst : String) (days : Nat)
    (ints : List String) (bud : Nat) (sd ed key : String)
    (env : Nat → Attempt) (data : Json) (t txt : String)
    (h0 : env 0 = .response 200 (some data) t) :
    (extractText data = .error .keyError ∨ extractText data = .error .indexError →
      (generate_itinerary_gemini dst days ints bud sd ed key env).result
          = .ret (.str parseErrorMsg) ∧
      (generate_itinerary_gemini dst days ints bud sd ed key env).sleeps = [] ∧
      (generate_itinerary_gemini dst days ints bud sd ed key env).warnings = 0 ∧
      (generate_itinerary_gemini dst days ints bud sd ed key env).requests.length
          = 1) ∧
    (extractText data = .ok (.str txt) →
      (generate_itinerary_gemini dst days ints bud sd ed key env).result
          = .ret (.str txt) ∧
      (generate_itinerary_gemini dst days ints bud sd ed key env).sleeps = [] ∧
      (generate_itinerary_gemini dst days ints bud sd ed key env).warnings
          = 0) := by
  constructor
  · intro hx
    have main : ∀ req : Request, runFrom req env 0 MAX_RETRIES =
        ⟨.ret (.str parseErrorMsg), [], 0, [req]⟩ := by
      intro req
      show runFrom req env 0 (4 + 1) = _
      rcases hx with hx | hx <;>
        · rw [runFrom_step, h0]
          simp [handleAttempt, hx]
    simp only [generate_itinerary_gemini]
    rw [main]
    exact ⟨rfl, rfl, rfl, rfl⟩
  · intro hx
    have main : ∀ req : Request, runFrom req env 0 MAX_RETRIES =
        ⟨.ret (.str txt), [], 0, [req]⟩ := by
      intro req
      show runFrom req env 0 (4 + 1) = _
      rw [runFrom_step, h0]
      simp [handleAttempt, hx]
    simp only [generate_itinerary_gemini]
    rw [main]
    exact ⟨rfl, rfl, rfl⟩

/-- Witness for C4 (amended): a 200 body missing `candidates` and a 200
body carrying a text field. -/
theorem parse_error_zero_retry_witness :
    ((generate_itinerary_gemini "d" 1 [] 100 "s" "e" "k"
        (fun _ => .response 200 (some (.obj [])) "")).result
          = .ret (.str parseErrorMsg) ∧
      (generate_itinerary_gemini "d" 1 [] 100 "s" "e" "k"
        (fun _ => .response 200 (some (.obj [])) "")).sleeps = [] ∧
      (generate_itinerary_gemini "d" 1 [] 100 "s" "e" "k"
        (fun _ => .response 200 (some (.obj [])) "")).warnings = 0 ∧
      (generate_itinerary_gemini "d" 1 [] 100 "s" "e" "k"
        (fun _ => .response 200 (some (.obj [])) "")).requests.length = 1) ∧
    ((generate_itinerary_gemini "d" 1 [] 100 "s" "e" "k"
        (fun _ => .response 200 (some (goodBody "TXT")) "")).result
          = .ret (.str "TXT") ∧
      (generate_itinerary_gemini "d" 1 [] 100 "s" "e" "k"
        (fun _ => .response 200 (some (goodBody "TXT")) "")).sleeps = [] ∧
      (generate_itinerary_gemini "d" 1 [] 100 "s" "e" "k"
        (fun _ => .response 200 (some (goodBody "TXT")) "")).warnings = 0) :=
  ⟨(parse_error_zero_retry "d" 1 [] 100 "s" "e" "k"
      (fun _ => .response 200 (some (.obj [])) "") (.obj []) "" ""
      rfl).1 (Or.inl rfl),
   (parse_error_zero_retry "d" 1 [] 100 "s" "e" "k"
      (fun _ => .response 200 (some (goodBody "TXT")) "") (goodBody "TXT")
      "" "TXT" rfl).2 rfl⟩

/-- C5: a transport-level fault is classified exactly like a 503 at every
attempt index (same wait, same continue), and a run of five faults has
the same result, sleeps and warnings as a run of five 503s: the
exhaustion failure with sleeps 1, 2, 4, 8. -/
theorem fault_equiv_503 (dst : String) (days : Nat) (ints : List String)
    (bud : Nat) (sd ed key : String) (envF env5 : Nat → Attempt)
    (msgs : Nat → String) (bodies : Nat → Option Json) (texts : Nat → String)
    (hF : ∀ i, i < MAX_RETRIES → envF i = .fault (msgs i))
    (h5 : ∀ i, i < MAX_RETRIES → env5 i = .response 503 (bodies i) (texts i)) :
    (∀ attempt m b t, handleAttempt attempt (.fault m)
        = handleAttempt attempt (.response 503 b t)) ∧
    (generate_itinerary_gemini dst days ints bud sd ed key envF).result
        = (generate_itinerary_gemini dst days ints bud sd ed key env5).result ∧
    (generate_itinerary_gemini dst days ints bud sd ed key envF).sleeps
        = (generate_itinerary_gemini dst days ints bud sd ed key env5).sleeps ∧
    (generate_itinerary_gemini dst days ints bud sd ed key envF).warnings
        = (generate_itinerary_gemini dst days ints bud sd ed key env5).warnings ∧
    (generate_itinerary_gemini dst days ints bud sd ed key envF).result
        = .ret (.str exhaustMsg) ∧
    (generate_itinerary_gemini dst days ints bud sd ed key envF).sleeps
        = [1, 2, 4, 8] := by
  have mainF : ∀ req : Request, runFrom req envF 0 MAX_RETRIES =
      ⟨.ret (.str exhaustMsg), [1, 2, 4, 8], 4, [req, req, req, req, req]⟩ :=
    fun req => run_all_retry req envF (fun i hi => by rw [hF i hi]; rfl)
  have main5 : ∀ req : Request, runFrom req env5 0 MAX_RETRIES =
      ⟨.ret (.str exhaustMsg), [1, 2, 4, 8], 4, [req, req, req, req, req]⟩ :=
    fun req => run_all_retry req env5 (fun i hi => by
      rw [h5 i hi]
      exact handleAttempt_transient i 503 (bodies i) (texts i)
        (Or.inr (Or.inr rfl)))
  refine ⟨fun attempt m b t => rfl, ?_, ?_, ?_, ?_, ?_⟩ <;>
    simp only [generate_itinerary_gemini] <;> rw [mainF] <;> try rw [main5]

/-- Witness for C5: a fault on every attempt against a 503 on every
attempt. -/
theorem fault_equiv_503_witness :
    (generate_itinerary_gemini "Rome, Italy" 4 ["History"] 250
      "2026-11-02" "2026-11-05" "KEY"
      (fun _ => .fault "ConnectionError")).result
        = (generate_itinerary_gemini "Rome, Italy" 4 ["History"] 250
            "2026-11-02" "2026-11-05" "KEY"
            (fun _ => .response 503 none "unavailable")).result ∧
    (generate_itinerary_gemini "Rome, Italy" 4 ["History"] 250
      "2026-11-02" "2026-11-05" "KEY"
      (fun _ => .fault "ConnectionError")).sleeps
        = (generate_itinerary_gemini "Rome, Italy" 4 ["History"] 250
            "2026-11-02" "2026-11-05" "KEY"
            (fun _ => .response 503 none "unavailable")).sleeps ∧
    (generate_itinerary_gemini "Rome, Italy" 4 ["History"] 250
      "2026-11-02" "2026-11-05" "KEY"
      (fun _ => .fault "ConnectionError")).warnings
        = (generate_itinerary_gemini "Rome, Italy" 4 ["History"] 250
            "2026-11-02" "2026-11-05" "KEY"
            (fun _ => .response 503 none "unavailable")).warnings ∧
    (generate_itinerary_gemini "Rome, Italy" 4 ["History"] 250
      "2026-11-02" "2026-11-05" "KEY"
      (fun _ => .fault "ConnectionError")).result
        = .ret (.str exhaustMsg) ∧
    (generate_itinerary_gemini "Rome, Italy" 4 ["History"] 250
      "2026-11-02" "2026-11-05" "KEY"
      (fun _ => .fault "ConnectionError")).sleeps = [1, 2, 4, 8] :=
  (fault_equiv_503 "Rome, Italy" 4 ["History"] 250 "2026-11-02" "2026-11-05"
    "KEY" (fun _ => .fault "ConnectionError")
    (fun _ => .response 503 none "unavailable")
    (fun _ => "ConnectionError") (fun _ => none) (fun _ => "unavailable")
    (fun _ _ => rfl) (fun _ _ => rfl)).2

/-- C6: with a missing or empty credential the app halts at the
configuration gate with the configuration error, before any call to
`generate_itinerary_gemini` — no HTTP POST is issued. -/
theorem empty_credential_no_post (secret : Option String) (dst : String)
    (days : Nat) (ints : List String) (bud : Nat) (sd ed : String)
    (env : Nat → Attempt)
    (h : secret = none ∨ secret = some "") :
    app_run secret dst days ints bud sd ed env = .error configErrorMsg ∧
    postsOf (app_run secret dst days ints bud sd ed env) = 0 := by
  rcases h with h | h <;> subst h <;> exact ⟨rfl, rfl⟩

/-- Witness for C6: the absent-key case. -/
theorem empty_credential_no_post_witness :
    app_run none "Paris, France" 1 ["History"] 100 "2026-10-12" "2026-10-12"
      (fun _ => .fault "unused") = .error configErrorMsg ∧
    postsOf (app_run none "Paris, France" 1 ["History"] 100 "2026-10-12"
      "2026-10-12" (fun _ => .fault "unused")) = 0 :=
  empty_credential_no_post none "Paris, France" 1 ["History"] 100
    "2026-10-12" "2026-10-12" (fun _ => .fault "unused") (Or.inl rfl)

/-! ### Prompt-structure lemmas for C7 -/

/-- Folding string concatenation from an accumulator. -/
theorem foldl_append_str (f : Nat → String) :
    ∀ (l : List Nat) (acc : String),
      l.foldl (fun a i => a ++ f i) acc = acc ++ concatMap f l := by
  intro l
  induction l with
  | nil => intro acc; simp [concatMap, String.append_empty]
  | cons i is ih =>
    intro acc
    simp only [List.foldl_cons, concatMap, ih, String.append_assoc]

/-- Folding list concatenation from an accumulator. -/
theorem foldl_append_list (f : Nat → List String) :
    ∀ (l : List Nat) (acc : List String),
      l.foldl (fun a i => a ++ f i) acc = acc ++ l.flatMap f := by
  intro l
  induction l with
  | nil => intro acc; simp
  | cons i is ih =>
    intro acc
    simp only [List.foldl_cons, List.flatMap_cons, ih, List.append_assoc]

/-- The line-level view of the itinerary structure is the concatenation
of the per-day line lists. -/
theorem itineraryStructureLines_eq (days : Nat) :
    itineraryStructureLines days
      = (List.range' 1 days).flatMap daySectionLines := by
  simp [itineraryStructureLines, foldl_append_list]

/-- Every day header is recognised as a day header. -/
theorem isDayHeader_dayHeader (i : Nat) : isDayHeader (dayHeader i) = true := by
  have h1 : "### Day".toList <+: "### Day ".toList := by decide
  have h2 : ("### Day " ++ toString i).toList
      = "### Day ".toList ++ (toString i).toList := String.data_append _ _
  rw [isDayHeader, dayHeader, List.isPrefixOf_iff_prefix, h2]
  exact h1.trans (List.prefix_append _ _)

/-- Filtering one day section for headers keeps exactly its header. -/
theorem filter_daySectionLines (i : Nat) :
    (daySectionLines i).filter isDayHeader = [dayHeader i] := by
  have h : labelLines.filter isDayHeader = [] := rfl
  simp [daySectionLines, List.filter_cons, isDayHeader_dayHeader i, h]

/-- The headers of the itinerary structure are exactly `### Day 1` up to
`### Day N`, in ascending order. -/
theorem headers_ascending (N : Nat) :
    (itineraryStructureLines N).filter isDayHeader
      = (List.range' 1 N).map dayHeader := by
  induction N with
  | zero => rfl
  | succ n ih =>
    rw [itineraryStructureLines_eq] at ih ⊢
    rw [List.range'_concat]
    have hn : 1 + 1 * n = n + 1 := by omega
    rw [hn]
    simp only [List.flatMap_append, List.flatMap_cons, List.flatMap_nil,
      List.filter_append, List.map_append, ih, filter_daySectionLines,
      List.append_nil, List.map_cons, List.map_nil]

/-- Each day section occurs as a contiguous block of the structure. -/
theorem section_infix (N i : Nat) (h : i ∈ List.range' 1 N) :
    ∃ pre post,
      itineraryStructureLines N = pre ++ daySectionLines i ++ post := by
  obtain ⟨s, t, hst⟩ := List.append_of_mem h
  refine ⟨s.flatMap daySectionLines, t.flatMap daySectionLines, ?_⟩
  rw [itineraryStructureLines_eq, hst]
  simp [List.flatMap_append, List.flatMap_cons, List.append_assoc]

/-- C7: for every day count N in [1, 14] the prompt contains the
itinerary structure, which renders the day sections for 1..N in order;
its line view holds exactly N day-section headers, ascending, and each
header line is followed by the five placeholder label lines (Morning,
Afternoon, Evening, Transport Tip, Estimated Daily Cost). -/
theorem prompt_day_sections (N : Nat) (hlo : 1 ≤ N) (hhi : N ≤ 14)
    (dst : String) (ints : List String) (bud : Nat) (sd ed : String) :
    (∃ pre post : String,
      prompt dst N ints bud sd ed = pre ++ itinerary_structure N ++ post) ∧
    itinerary_structure N = concatMap daySection (List.range' 1 N) ∧
    (∀ i, daySection i = "\n" ++ linesToText (dayHeader i :: labelLines)) ∧
    (itineraryStructureLines N).filter isDayHeader
      = (List.range' 1 N).map dayHeader ∧
    ((itineraryStructureLines N).filter isDayHeader).length = N ∧
    ∀ i, i ∈ List.range' 1 N →
      ∃ pre post, itineraryStructureLines N
        = pre ++ (dayHeader i :: labelLines) ++ post := by
  have _ := hlo
  have _ := hhi
  refine ⟨?_, by simp [itinerary_structure, foldl_append_str], fun i => rfl,
    headers_ascending N, ?_, fun i h => by
      simpa [daySectionLines] using section_infix N i h⟩
  · refine ⟨"\nYou are an expert travel planner creating a detailed, budget-friendly itinerary for students.\n\nDestination: "
      ++ dst
      ++ "\nDays: " ++ toString N
      ++ "\nInterests: " ++ String.intercalate ", " ints
      ++ "\nBudget: $" ++ toString bud ++ " (Total estimated cost)"
      ++ "\nTravel Dates: " ++ sd ++ " to " ++ ed
      ++ "\n\nGenerate the **" ++ toString N
      ++ "-day itinerary** below, strictly filling in the content for each of the pre-defined Day sections.\n\n",
      "\n\nConclude the itinerary with a final section titled "
      ++ apos ++ "💰 Money-Saving Pro Tips" ++ apos
      ++ " listing 3 actionable, specific budget tips for this destination. Format the entire response using Markdown for clear readability.\n", ?_⟩
    simp [prompt, String.append_assoc]
  · rw [headers_ascending N]
    simp [List.length_map, List.length_range']

/-- Witness for C7 at N = 3. -/
theorem prompt_day_sections_witness :
    (1 ≤ 3 ∧ 3 ≤ 14) ∧
    (∃ pre post : String,
      prompt "Paris" 3 ["Food"] 300 "2026-10-12" "2026-10-14"
        = pre ++ itinerary_structure 3 ++ post) ∧
    itinerary_structure 3 = concatMap daySection (List.range' 1 3) ∧
    (itineraryStructureLines 3).filter isDayHeader
      = (List.range' 1 3).map dayHeader ∧
    ((itineraryStructureLines 3).filter isDayHeader).length = 3 :=
  ⟨⟨by norm_num, by norm_num⟩,
   (prompt_day_sections 3 (by norm_num) (by norm_num) "Paris" ["Food"] 300
     "2026-10-12" "2026-10-14").1,
   (prompt_day_sections 3 (by norm_num) (by norm_num) "Paris" ["Food"] 300
     "2026-10-12" "2026-10-14").2.1,
   (prompt_day_sections 3 (by norm_num) (by norm_num) "Paris" ["Food"] 300
     "2026-10-12" "2026-10-14").2.2.2.1,
   (prompt_day_sections 3 (by norm_num) (by norm_num) "Paris" ["Food"] 300
     "2026-10-12" "2026-10-14").2.2.2.2.1⟩

/-- C8: every request the call issues is a POST to the fixed endpoint
with the credential as the `key` query parameter (the only header is
Content-Type, so the key is not a header), and a JSON body of exactly the
shape contents/parts/text plus generationConfig with temperature 0.7 and
maxOutputTokens 3000 — nothing else. -/
theorem request_shape (dst : String) (days : Nat) (ints : List String)
    (bud : Nat) (sd ed key : String) (env : Nat → Attempt) (r : Request)
    (h : r ∈ (generate_itinerary_gemini dst days ints bud sd ed key env).requests) :
    r.method = "POST" ∧
    r.url = API_URL ++ "?key=" ++ key ∧
    r.headers = [("Content-Type", "application/json")] ∧
    r.body = .obj
      [("contents", .arr [.obj [("parts",
          .arr [.obj [("text", .str (prompt dst days ints bud sd ed))]])]]),
       ("generationConfig", .obj [("temperature", .decimal 7 1),
          ("maxOutputTokens", .decimal 3000 0)])] := by
  simp only [generate_itinerary_gemini] at h
  have hr := runFrom_requests _ env _ _ r h
  subst hr
  exact ⟨rfl, rfl, rfl, rfl⟩

/-- Witness for C8: the single request of a run answered by one 401. -/
theorem request_shape_witness :
    (Request.mk "POST" (API_URL ++ "?key=" ++ "KEY8")
        [("Content-Type", "application/json")]
        (payload (prompt "Rome" 2 ["Art"] 150 "2026-10-12" "2026-10-13"))).method
      = "POST" ∧
    (Request.mk "POST" (API_URL ++ "?key=" ++ "KEY8")
        [("Content-Type", "application/json")]
        (payload (prompt "Rome" 2 ["Art"] 150 "2026-10-12" "2026-10-13"))).url
      = API_URL ++ "?key=" ++ "KEY8" ∧
    (Request.mk "POST" (API_URL ++ "?key=" ++ "KEY8")
        [("Content-Type", "application/json")]
        (payload (prompt "Rome" 2 ["Art"] 150 "2026-10-12" "2026-10-13"))).headers
      = [("Content-Type", "application/json")] ∧
    (Request.mk "POST" (API_URL ++ "?key=" ++ "KEY8")
        [("Content-Type", "application/json")]
        (payload (prompt "Rome" 2 ["Art"] 150 "2026-10-12" "2026-10-13"))).body
      = .obj
        [("contents", .arr [.obj [("parts",
            .arr [.obj [("text",
              .str (prompt "Rome" 2 ["Art"] 150 "2026-10-12" "2026-10-13"))]])]]),
         ("generationConfig", .obj [("temperature", .decimal 7 1),
            ("maxOutputTokens", .decimal 3000 0)])] :=
  request_shape "Rome" 2 ["Art"] 150 "2026-10-12" "2026-10-13" "KEY8"
    (fun _ => .response 401 none "denied")
    (Request.mk "POST" (API_URL ++ "?key=" ++ "KEY8")
      [("Content-Type", "application/json")]
      (payload (prompt "Rome" 2 ["Art"] 150 "2026-10-12" "2026-10-13")))
    (List.Mem.head _)

/-- C9 counterexample: a 200 response whose JSON body is a top-level
array makes `data["candidates"]` raise TypeError, which propagates out of
the function: the caller receives an exception, not a string. -/
theorem returns_string_cex :
    (generate_itinerary_gemini "d" 1 [] 100 "s" "e" "k"
      (fun _ => .response 200 (some (.arr [])) "")).result
        = .raised .typeError ∧
    returnsString (.raised .typeError) = false :=
  ⟨rfl, rfl⟩

/-- The loop returns a string whenever every attempt it can reach is
safe. -/
theorem runFrom_safe (req : Request) (env : Nat → Attempt) :
    ∀ fuel attempt,
      (∀ i, attempt ≤ i → i < attempt + fuel → safeAttempt (env i)) →
      ∃ s, (runFrom req env attempt fuel).result = .ret (.str s) := by
  intro fuel
  induction fuel with
  | zero => intro attempt _; exact ⟨exhaustMsg, rfl⟩
  | succ n ih =>
    intro attempt h
    rw [runFrom_step]
    cases hH : handleAttempt attempt (env attempt) with
    | retry w =>
      obtain ⟨s, hs⟩ := ih (attempt + 1)
        (fun i h1 h2 => h i (by omega) (by omega))
      refine ⟨s, ?_⟩
      by_cases hlt : attempt < MAX_RETRIES - 1 <;> simp [hlt, hs]
    | finish o =>
      have ho : ∃ s, o = .ret (.str s) := by
        have hsafe := h attempt (Nat.le_refl _) (by omega)
        cases hA : env attempt with
        | fault m =>
          rw [hA] at hH
          exact StepRes.noConfusion hH
        | response status body text =>
          rw [hA] at hH hsafe
          by_cases h200 : status = 200
          · subst h200
            cases body with
            | none => exact StepRes.noConfusion hH
            | some data =>
              have hb := hsafe rfl data rfl
              cases hx : extractText data with
              | ok v =>
                obtain ⟨s, hv⟩ := hb.2 v hx
                have he : handleAttempt attempt (.response 200 (some data) text)
                    = .finish (.ret v) := by simp [handleAttempt, hx]
                rw [he] at hH
                injection hH with h2
                exact ⟨s, by rw [← h2, hv]⟩
              | error e =>
                cases e with
                | keyError =>
                  have he : handleAttempt attempt (.response 200 (some data) text)
                      = .finish (.ret (.str parseErrorMsg)) := by
                    simp [handleAttempt, hx]
                  rw [he] at hH
                  injection hH with h2
                  exact ⟨parseErrorMsg, h2.symm⟩
                | indexError =>
                  have he : handleAttempt attempt (.response 200 (some data) text)
                      = .finish (.ret (.str parseErrorMsg)) := by
                    simp [handleAttempt, hx]
                  rw [he] at hH
                  injection hH with h2
                  exact ⟨parseErrorMsg, h2.symm⟩
                | typeError => exact absurd hx hb.1
          · by_cases htr : status = 429 ∨ status = 500 ∨ status = 503
            · rw [handleAttempt_transient attempt status body text htr] at hH
              exact StepRes.noConfusion hH
            · push_neg at htr
              rw [handleAttempt_permanent attempt status body text h200
                htr.1 htr.2.1 htr.2.2] at hH
              injection hH with h2
              exact ⟨permErrorMsg status text, h2.symm⟩
      obtain ⟨s, hs⟩ := ho
      exact ⟨s, hs⟩

/-- C9 (amended): for every response sequence in which each 200 body is
JSON whose nested access raises at most KeyError or IndexError, and any
extracted text field is a string, the call returns a string to the
caller and no exception escapes.  (As stated the claim is false: a 200
body whose access raises TypeError propagates the exception.) -/
theorem returns_string_safe (dst : String) (days : Nat) (ints : List String)
    (bud : Nat) (sd ed key : String) (env : Nat → Attempt)
    (h : ∀ i, i < MAX_RETRIES → safeAttempt (env i)) :
    ∃ s : String,
      (generate_itinerary_gemini dst days ints bud sd ed key env).result
        = .ret (.str s) := by
  simp only [generate_itinerary_gemini]
  exact runFrom_safe _ env MAX_RETRIES 0 (fun i _ h2 => h i (by omega))

/-- Witness for C9 (amended): five 503 responses are safe and yield the
exhaustion string. -/
theorem returns_string_safe_witness :
    ∃ s : String,
      (generate_itinerary_gemini "d" 1 [] 100 "s" "e" "k"
        (fun _ => .response 503 none "")).result = .ret (.str s) :=
  returns_string_safe "d" 1 [] 100 "s" "e" "k"
    (fun _ => .response 503 none "")
    (fun i _ => by simp [safeAttempt])

/-- C10: the URL, headers, prompt and payload are built once, before the
retry loop, so any two requests issued within one call are identical. -/
theorem request_invariant (dst : String) (days : Nat) (ints : List String)
    (bud : Nat) (sd ed key : String) (env : Nat → Attempt) (r r' : Request)
    (h : r ∈ (generate_itinerary_gemini dst days ints bud sd ed key env).requests)
    (h' : r' ∈ (generate_itinerary_gemini dst days ints bud sd ed key env).requests) :
    r = r' := by
  simp only [generate_itinerary_gemini] at h h'
  rw [runFrom_requests _ env _ _ r h, runFrom_requests _ env _ _ r' h']

/-- Witness for C10: the first and second requests of a run whose first
attempt sees a 503 and whose second sees a 401. -/
theorem request_invariant_witness :
    Request.mk "POST" (API_URL ++ "?key=" ++ "K10")
        [("Content-Type", "application/json")]
        (payload (prompt "Goa" 1 ["Nature"] 120 "2026-11-01" "2026-11-01"))
      = Request.mk "POST" (API_URL ++ "?key=" ++ "K10")
        [("Content-Type", "application/json")]
        (payload (prompt "Goa" 1 ["Nature"] 120 "2026-11-01" "2026-11-01")) :=
  request_invariant "Goa" 1 ["Nature"] 120 "2026-11-01" "2026-11-01" "K10"
    (fun i => if i = 0 then .response 503 none "s" else .response 401 none "p")
    (Request.mk "POST" (API_URL ++ "?key=" ++ "K10")
      [("Content-Type", "application/json")]
      (payload (prompt "Goa" 1 ["Nature"] 120 "2026-11-01" "2026-11-01")))
    (Request.mk "POST" (API_URL ++ "?key=" ++ "K10")
      [("Content-Type", "application/json")]
      (payload (prompt "Goa" 1 ["Nature"] 120 "2026-11-01" "2026-11-01")))
    (List.Mem.head _)
    (List.Mem.tail _ (List.Mem.head _))
